import Mathlib

set_option maxRecDepth 8000

/-!
Shallow embedding of the Material Planning Assistant reporting engine
(`material_planning_assistant.py`).

The program is a reporting dashboard over an in-memory "Material Study"
table (one row per demand line).  The embedding models one row as a
`Row`, the table as a `List Row`, and each derived view as a pure
function of the table, mirroring the pandas filter / group-by /
aggregate pipeline of the source:

* `calculate_project_status` — per-project status classification;
* `material_inquiry`         — per-item diagnosis with blocking issues;
* `supplier_performance`     — delay statistics grouped by supplier;
* `production_readiness`     — per-project ranking by fulfillment;
* the push-to-production bucket filters and readiness verdict of
  `show_push_to_production`.

Quantities are rationals (pandas numeric columns).  The `delay` column
holds either a number of days or the string sentinel `"late"`, modelled as
a tagged value `Delay`.  Reductions that end up comparing a number with
the string — the `Series.max` of the project status view and the supplier
mean/max aggregation — raise a Python TypeError in the source and are
modelled as explicit crash outcomes rather than totalized.
-/

/-- The `delay` column: a numeric number of days, or the `"late"` sentinel
meaning known late but unquantified. -/
inductive Delay where
  | days (n : ℚ)
  | late
deriving DecidableEq, Repr, Inhabited

/-- One demand line of the Material Study table. -/
structure Row where
  sec_order : String
  sec_number : String
  product : Option String
  item : String
  description : String
  req_qty : ℚ
  allocated_qty : ℚ
  balance : ℚ
  supply_type : String
  source : String
  locater : String
  supplier : Option String
  delay : Delay
  sec_delivery : Option Int
  roh_delivery : Option Int
deriving DecidableEq, Repr, Inhabited

/-- The in-memory Material Study table. -/
abbrev Table := List Row

/-- One comparison step of the pandas max reduction on the object-dtype
delay column: two numbers compare numerically, two `"late"` strings compare
as equal strings, and comparing a number with the string raises a Python
TypeError (str/int ordering is forbidden), modelled as `none`. -/
def delay_max2 : Delay → Delay → Option Delay
  | Delay.days m, Delay.days n => some (Delay.days (max m n))
  | Delay.late, Delay.late => some Delay.late
  | _, _ => none

/-- pandas `Series.max()` on the object-dtype delay column: a left-to-right
reduction with Python comparisons.  It yields the numeric maximum when all
values are numeric, `"late"` when all values are the late string, and a
TypeError (`none`) as soon as a numeric day count meets the string.  The
empty case is never reached: the caller guards on nonemptiness. -/
def series_max_delay : List Delay → Option Delay
  | [] => none
  | d :: ds => ds.foldlM delay_max2 d

/-- Minimum of a column of optional dates, skipping missing values
(pandas `Series.min`, which ignores `NaT`). -/
def opt_min (l : List (Option Int)) : Option Int :=
  match l.filterMap id with
  | [] => none
  | x :: xs => some (xs.foldl min x)

/-- Group-by on a string key followed by a sum aggregate
(pandas `groupby(key)[val].sum()`). -/
def group_sum (rows : Table) (key : Row → String) (val : Row → ℚ) : List (String × ℚ) :=
  ((rows.map key).dedup).map
    (fun k => (k, ((rows.filter (fun r => decide (key r = k))).map val).sum))

/-- Rows of one project (source: `df[df['SEC order'] == project].copy()`). -/
def project_rows (df : Table) (project : String) : Table :=
  df.filter (fun r => decide (r.sec_order = project))

/-- Lines 96-97 of the source: the maximum delay over a project's
nonzero-delay rows — `days 0` when there are none
(`max_delay = delayed_items['delay'].max() if not delayed_items.empty
else 0`), and the `Series.max` reduction otherwise, which raises a
TypeError (`none`) when numeric and `"late"` delays co-occur. -/
def proj_max_delay (df : Table) (project : String) : Option Delay :=
  let delayed_items :=
    (project_rows df project).filter (fun r => decide (r.delay ≠ Delay.days 0))
  if delayed_items.isEmpty then some (Delay.days 0)
  else series_max_delay (delayed_items.map Row.delay)

/-- Result record of `calculate_project_status`. -/
structure ProjectStatus where
  status : String
  status_class : String
  total_items : Nat
  ready_items : Nat
  partial_items : Nat
  missing_items : Nat
  total_req : ℚ
  total_allocated : ℚ
  total_balance : ℚ
  fulfillment_pct : ℚ
  max_delay : Delay
  supply_breakdown : List (String × ℚ)
  sec_delivery : Option Int
  roh_delivery : Option Int
deriving DecidableEq, Repr

/-- Outcome of `calculate_project_status`: the function returns `None` for
an unknown project, raises a TypeError at the line-97 max reduction when
the project's nonzero-delay rows mix numeric delays with the `"late"`
string (modelled as `crash`), and returns the status record otherwise. -/
inductive StatusResult where
  | crash
  | result (r : Option ProjectStatus)
deriving DecidableEq, Repr

/-- Embedding of `calculate_project_status(df, project)`.  The counts and
sums of lines 85-93 are computed before the line-97 crash point; the record
is returned only when the max reduction succeeds. -/
def calculate_project_status (df : Table) (project : String) : StatusResult :=
  let proj_data := project_rows df project
  if proj_data.isEmpty then StatusResult.result none
  else
    match proj_max_delay df project with
    | none => StatusResult.crash
    | some max_delay =>
    let total_balance := (proj_data.map Row.balance).sum
    let missing := (proj_data.filter (fun r => decide (r.allocated_qty = 0))).length
    let total_req := (proj_data.map Row.req_qty).sum
    let total_allocated := (proj_data.map Row.allocated_qty).sum
    StatusResult.result (some {
      status :=
        if total_balance = 0 then "🟢 Ready"
        else if 0 < missing ∨ max_delay = Delay.late then "🔴 Critical"
        else "🟡 Partial"
      status_class :=
        if total_balance = 0 then "status-ready"
        else if 0 < missing ∨ max_delay = Delay.late then "status-critical"
        else "status-partial"
      total_items := proj_data.length
      ready_items := (proj_data.filter (fun r => decide (r.balance = 0))).length
      partial_items :=
        (proj_data.filter (fun r => decide (0 < r.balance ∧ 0 < r.allocated_qty))).length
      missing_items := missing
      total_req := total_req
      total_allocated := total_allocated
      total_balance := total_balance
      fulfillment_pct := if 0 < total_req then total_allocated / total_req * 100 else 0
      max_delay := max_delay
      supply_breakdown := group_sum proj_data Row.supply_type Row.allocated_qty
      sec_delivery := opt_min (proj_data.map Row.sec_delivery)
      roh_delivery := opt_min (proj_data.map Row.roh_delivery) })

/-- A convenient fully populated base row for concrete test tables. -/
def base_row : Row :=
  { sec_order := "P1"
    sec_number := "N1"
    product := none
    item := "ITM1"
    description := "desc"
    req_qty := 0
    allocated_qty := 0
    balance := 0
    supply_type := "PO"
    source := "src"
    locater := "loc"
    supplier := none
    delay := Delay.days 0
    sec_delivery := none
    roh_delivery := none }

/-- Rows of one item across all projects
(source: `df[df['item'] == item_code].copy()`). -/
def item_rows (df : Table) (item_code : String) : Table :=
  df.filter (fun r => decide (r.item = item_code))

/-- One entry of the blocking-issue list of `material_inquiry`; each
constructor carries the quantity printed in the corresponding message
("... units stuck in QC", "... units in GR process",
"... units on delayed POs", "... units need PR creation"). -/
inductive BlockingIssue where
  | stuck_in_qc (units : ℚ)
  | gr_in_process (units : ℚ)
  | delayed_po (units : ℚ)
  | pr_needed (units : ℚ)
deriving DecidableEq, Repr

/-- Result record of `material_inquiry`. -/
structure MaterialInfo where
  description : String
  total_req : ℚ
  total_allocated : ℚ
  total_balance : ℚ
  allocation_by_project : List (String × ℚ × ℚ × ℚ)
  supply_sources : List (String × String × ℚ)
  blocking_issues : List BlockingIssue
  item_data : Table
deriving DecidableEq, Repr

/-- Embedding of `material_inquiry(df, item_code)`. -/
def material_inquiry (df : Table) (item_code : String) : Option MaterialInfo :=
  let item_data := item_rows df item_code
  if item_data.isEmpty then none
  else
    let qc_items := item_data.filter (fun r => decide (r.supply_type = "QC"))
    let gr_items := item_data.filter (fun r => decide (r.supply_type = "GR_in_process"))
    let po_late :=
      item_data.filter (fun r => decide (r.supply_type = "PO" ∧ r.delay = Delay.late))
    let pr_items := item_data.filter (fun r => decide (r.supply_type = "PR"))
    some {
      description := (item_data.headD base_row).description
      total_req := (item_data.map Row.req_qty).sum
      total_allocated := (item_data.map Row.allocated_qty).sum
      total_balance := (item_data.map Row.balance).sum
      allocation_by_project :=
        ((item_data.map Row.sec_order).dedup).map (fun k =>
          let g := item_data.filter (fun r => decide (r.sec_order = k))
          (k, (g.map Row.req_qty).sum, (g.map Row.allocated_qty).sum, (g.map Row.balance).sum))
      supply_sources :=
        ((item_data.map (fun r => (r.supply_type, r.source))).dedup).map (fun k =>
          let g :=
            item_data.filter (fun r => decide (r.supply_type = k.1 ∧ r.source = k.2))
          (k.1, k.2, (g.map Row.allocated_qty).sum))
      blocking_issues :=
        (if qc_items.isEmpty then []
         else [BlockingIssue.stuck_in_qc ((qc_items.map Row.allocated_qty).sum)]) ++
        (if gr_items.isEmpty then []
         else [BlockingIssue.gr_in_process ((gr_items.map Row.allocated_qty).sum)]) ++
        (if po_late.isEmpty then []
         else [BlockingIssue.delayed_po ((po_late.map Row.allocated_qty).sum)]) ++
        (if pr_items.isEmpty then []
         else [BlockingIssue.pr_needed ((pr_items.map Row.balance).sum)])
      item_data := item_data }

/-- The quantity held in quality control for an item: the summed allocated
quantity of its `"QC"` supply rows (the number the stuck-in-QC message prints). -/
def qc_held_qty (df : Table) (item_code : String) : ℚ :=
  (((item_rows df item_code).filter (fun r => decide (r.supply_type = "QC"))).map
      Row.allocated_qty).sum

/-- One output row of `supplier_performance`. -/
structure SupplierStats where
  supplier : String
  delayed_items : Nat
  avg_delay_days : ℚ
  max_delay_days : ℚ
  total_qty_delayed : ℚ
deriving DecidableEq, Repr

/-- Numeric value of a delay.  In `supplier_performance` it is only applied
on the branch where no `"late"` sentinel is present among the aggregated
rows (the mixed-type branch aborts instead), so the `late` case is never
reached there. -/
def delay_val : Delay → ℚ
  | Delay.days n => n
  | Delay.late => 0

/-- Maximum of a nonempty list of rationals (0 for the empty list). -/
def rat_list_max : List ℚ → ℚ
  | [] => 0
  | x :: xs => xs.foldl max x

/-- Rows with a non-null supplier and nonzero delay
(source: `supplier_data = df[df['supplier'].notna()]` then
`delayed = supplier_data[supplier_data['delay'] != 0]`). -/
def delayed_rows (df : Table) : Table :=
  (df.filter (fun r => r.supplier.isSome)).filter
    (fun r => decide (r.delay ≠ Delay.days 0))

/-- Aggregates of one supplier group: count, mean and max of the delay
column and summed allocated quantity over the supplier's delayed rows. -/
def mk_supplier_stats (delayed : Table) (s : String) : SupplierStats :=
  let g := delayed.filter (fun r => decide (r.supplier = some s))
  { supplier := s
    delayed_items := g.length
    avg_delay_days := ((g.map (fun r => delay_val r.delay)).sum) / (g.length : ℚ)
    max_delay_days := rat_list_max (g.map (fun r => delay_val r.delay))
    total_qty_delayed := (g.map Row.allocated_qty).sum }

/-- Outcome of `supplier_performance`: the pandas aggregation raises a
TypeError when the mixed delay column contains the `"late"` string among
the delayed rows (modelled as `crash`); the function returns `None` when
no row has a supplier (`no_data`); otherwise the statistics table. -/
inductive PerfResult where
  | crash
  | no_data
  | stats (l : List SupplierStats)
deriving DecidableEq, Repr

/-- Descending order on mean delay
(source: `sort_values('avg_delay_days', ascending=False)`). -/
def by_avg_delay_desc (a b : SupplierStats) : Prop :=
  b.avg_delay_days ≤ a.avg_delay_days

instance : DecidableRel by_avg_delay_desc :=
  fun a b => inferInstanceAs (Decidable (b.avg_delay_days ≤ a.avg_delay_days))

instance : IsTotal SupplierStats by_avg_delay_desc :=
  ⟨fun a b => le_total b.avg_delay_days a.avg_delay_days⟩

instance : IsTrans SupplierStats by_avg_delay_desc :=
  ⟨fun _ _ _ h1 h2 => le_trans h2 h1⟩

/-- Embedding of `supplier_performance(df)`. -/
def supplier_performance (df : Table) : PerfResult :=
  let supplier_data := df.filter (fun r => r.supplier.isSome)
  if supplier_data.isEmpty then PerfResult.no_data
  else
    let delayed := delayed_rows df
    if delayed.any (fun r => decide (r.delay = Delay.late)) then PerfResult.crash
    else
      let sups := (delayed.map (fun r => r.supplier.getD "")).dedup
      PerfResult.stats
        (List.insertionSort by_avg_delay_desc (sups.map (mk_supplier_stats delayed)))

/-- One row of the `production_readiness` ranking. -/
structure ReadinessRow where
  project : String
  status : String
  fulfillment_pct : ℚ
  missing_items : Nat
  max_delay : Delay
  sec_delivery : Option Int
deriving DecidableEq, Repr

/-- Descending order on fulfillment percentage
(source: `sort_values('Fulfillment %', ascending=False)`). -/
def by_fulfillment_desc (a b : ReadinessRow) : Prop :=
  b.fulfillment_pct ≤ a.fulfillment_pct

instance : DecidableRel by_fulfillment_desc :=
  fun a b => inferInstanceAs (Decidable (b.fulfillment_pct ≤ a.fulfillment_pct))

/-- Embedding of `production_readiness(df)`; a TypeError in any
per-project status computation propagates and aborts the whole view. -/
def production_readiness (df : Table) : Option (List ReadinessRow) :=
  let projects := (df.map Row.sec_order).dedup
  match projects.mapM (fun p =>
      match calculate_project_status df p with
      | StatusResult.crash => none
      | StatusResult.result o => some (p, o)) with
  | none => none
  | some pairs =>
    some (List.insertionSort by_fulfillment_desc
      (pairs.filterMap (fun po =>
        po.2.map (fun st =>
          { project := po.1
            status := st.status
            fulfillment_pct := st.fulfillment_pct
            missing_items := st.missing_items
            max_delay := st.max_delay
            sec_delivery := st.sec_delivery }))))

/-- Push-to-production bucket 1, materials stopped at QC
(source: `filtered_df[filtered_df['supply_type'] == 'QC']`). -/
def qc_items_of (fdf : Table) : Table :=
  fdf.filter (fun r => decide (r.supply_type = "QC"))

/-- Push-to-production bucket 2, materials pending goods receipt
(source: `filtered_df[filtered_df['supply_type'] == 'GR_in_process']`). -/
def gr_items_of (fdf : Table) : Table :=
  fdf.filter (fun r => decide (r.supply_type = "GR_in_process"))

/-- Push-to-production bucket 3, materials available in WIP
(source: `filtered_df[filtered_df['locater'] == '1-1-1-1']`). -/
def wip_items_of (fdf : Table) : Table :=
  fdf.filter (fun r => decide (r.locater = "1-1-1-1"))

/-- Push-to-production bucket 4, materials to reallocate from other jobs:
on-hand inventory whose source is neither the free-stock sentinel nor one
of the currently selected identifiers
(source: `supply_type == 'inventory' & source != 'free_stock' & ~source.isin(selected)`). -/
def allocate_items_of (fdf : Table) (selected : List String) : Table :=
  fdf.filter (fun r =>
    decide (r.supply_type = "inventory" ∧ r.source ≠ "free_stock" ∧ r.source ∉ selected))

/-- Push-to-production bucket 5, missing materials requiring PRs
(source: `(filtered_df['balance'] > 0) & (filtered_df['allocated_qty'] == 0)`). -/
def missing_items_of (fdf : Table) : Table :=
  fdf.filter (fun r => decide (0 < r.balance ∧ r.allocated_qty = 0))

/-- The fulfillment percentage displayed in the push-to-production header
(source: `filtered_df['allocated_qty'].sum() / filtered_df['req_qty'].sum() * 100`). -/
def push_fulfillment_value (fdf : Table) : ℚ :=
  (fdf.map Row.allocated_qty).sum / (fdf.map Row.req_qty).sum * 100

/-- The local variable `fulfillment` of `show_push_to_production`: it is
assigned only when the selection is nonempty and its total required
quantity is positive, and stays unassigned (`none`) otherwise. -/
def push_fulfillment (fdf : Table) : Option ℚ :=
  if fdf.isEmpty = false ∧ 0 < (fdf.map Row.req_qty).sum then
    some (push_fulfillment_value fdf)
  else none

/-- Blocker count of the readiness assessment
(source: `total_blocking = len(qc_items) + len(gr_items) + len(missing_items)`). -/
def total_blocking (fdf : Table) : Nat :=
  (qc_items_of fdf).length + (gr_items_of fdf).length + (missing_items_of fdf).length

/-- The overall readiness verdict of the push-to-production view. -/
inductive Verdict where
  | all_clear
  | almost_ready
  | not_ready
deriving DecidableEq, Repr

/-- Outcome of evaluating the readiness verdict: either a verdict, or the
Python NameError raised when the unassigned `fulfillment` variable is read. -/
inductive VerdictResult where
  | name_error
  | verdict (v : Verdict)
deriving DecidableEq, Repr

/-- Embedding of the verdict chain
`if total_blocking == 0 and fulfillment >= 100: ... elif total_blocking <= 3
and fulfillment >= 90: ... else: ...`, with Python short-circuit evaluation:
`fulfillment` is read only when the preceding blocker-count test succeeds. -/
def push_verdict (fdf : Table) : VerdictResult :=
  let tb := total_blocking fdf
  if tb = 0 then
    match push_fulfillment fdf with
    | none => VerdictResult.name_error
    | some f =>
      if 100 ≤ f then VerdictResult.verdict Verdict.all_clear
      else if 90 ≤ f then VerdictResult.verdict Verdict.almost_ready
      else VerdictResult.verdict Verdict.not_ready
  else if tb ≤ 3 then
    match push_fulfillment fdf with
    | none => VerdictResult.name_error
    | some f =>
      if 90 ≤ f then VerdictResult.verdict Verdict.almost_ready
      else VerdictResult.verdict Verdict.not_ready
  else VerdictResult.verdict Verdict.not_ready

/-- The session state: the Material Study table loaded once per session.
Every view mutates only `.copy()` frames, never this table. -/
structure Session where
  study : Table
deriving DecidableEq, Repr

/-- Project Health view: computes the project status from the session table
and leaves the session unchanged. -/
def run_project_status (s : Session) (project : String) :
    StatusResult × Session :=
  (calculate_project_status s.study project, s)

/-- Material Inquiry view as a state-passing function. -/
def run_material_inquiry (s : Session) (item_code : String) :
    Option MaterialInfo × Session :=
  (material_inquiry s.study item_code, s)

/-- Supplier Performance view as a state-passing function. -/
def run_supplier_performance (s : Session) : PerfResult × Session :=
  (supplier_performance s.study, s)

/-- Production Readiness view as a state-passing function. -/
def run_production_readiness (s : Session) : Option (List ReadinessRow) × Session :=
  (production_readiness s.study, s)

/-- The five buckets and the verdict of the push-to-production view. -/
structure PushView where
  qc : Table
  gr : Table
  wip : Table
  to_allocate : Table
  missing : Table
  verdict : VerdictResult
deriving DecidableEq, Repr

/-- Push to Production view as a state-passing function; `filtered_df` is
the `.copy()` of the rows whose SEC order is among the selected ones, and
all later column edits happen on further copies of the buckets. -/
def run_push_to_production (s : Session) (selected : List String) :
    PushView × Session :=
  let filtered_df := s.study.filter (fun r => decide (r.sec_order ∈ selected))
  ({ qc := qc_items_of filtered_df
     gr := gr_items_of filtered_df
     wip := wip_items_of filtered_df
     to_allocate := allocate_items_of filtered_df selected
     missing := missing_items_of filtered_df
     verdict := push_verdict filtered_df }, s)

/-! ## Claim-side aggregate expressions

Named forms of the per-project aggregates computed inside
`calculate_project_status` (lines 85-97 of the source), used to state the
claims about the returned record. -/

/-- Total balance of a project (`proj_data['balance'].sum()`). -/
def proj_total_balance (df : Table) (project : String) : ℚ :=
  ((project_rows df project).map Row.balance).sum

/-- Ready-item count of a project
(`len(proj_data[proj_data['balance'] == 0])`). -/
def proj_ready_count (df : Table) (project : String) : Nat :=
  ((project_rows df project).filter (fun r => decide (r.balance = 0))).length

/-- Partial-item count of a project
(`len(proj_data[(balance > 0) & (allocated_qty > 0)])`). -/
def proj_partial_count (df : Table) (project : String) : Nat :=
  ((project_rows df project).filter
      (fun r => decide (0 < r.balance ∧ 0 < r.allocated_qty))).length

/-- Missing-item count of a project
(`len(proj_data[proj_data['allocated_qty'] == 0])`). -/
def proj_missing_count (df : Table) (project : String) : Nat :=
  ((project_rows df project).filter (fun r => decide (r.allocated_qty = 0))).length

/-- The fulfillment percentage as the specification words it:
allocated / required × 100 when total required is positive, 0 otherwise. -/
def fulfillment_spec (df : Table) (project : String) : ℚ :=
  if 0 < ((project_rows df project).map Row.req_qty).sum then
    ((project_rows df project).map Row.allocated_qty).sum
      / ((project_rows df project).map Row.req_qty).sum * 100
  else 0

/-- The item counts a returned status record carries, for stating concrete
refutations without spelling out whole records. -/
def status_counts : StatusResult → Option (Nat × Nat × Nat × Nat)
  | StatusResult.result (some st) =>
    some (st.ready_items, st.partial_items, st.missing_items, st.total_items)
  | _ => none

/-- The fulfillment percentage a returned status record carries. -/
def status_fulfillment : StatusResult → Option ℚ
  | StatusResult.result (some st) => some st.fulfillment_pct
  | _ => none

lemma ne_nil_isEmpty_false {l : Table} (h : l ≠ []) : l.isEmpty = false := by
  cases l with
  | nil => exact absurd rfl h
  | cons a t => rfl

lemma length_filter_partition (l : Table)
    (h : ∀ r ∈ l,
        0 ≤ r.balance ∧ 0 ≤ r.allocated_qty ∧ ¬(r.balance = 0 ∧ r.allocated_qty = 0)) :
    (l.filter (fun r => decide (r.balance = 0))).length
      + (l.filter (fun r => decide (0 < r.balance ∧ 0 < r.allocated_qty))).length
      + (l.filter (fun r => decide (r.allocated_qty = 0))).length = l.length := by
  induction l with
  | nil => simp
  | cons r t ih =>
    obtain ⟨hb, ha, hno⟩ := h r (List.mem_cons_self r t)
    have iht := ih (fun x hx => h x (List.mem_cons_of_mem r hx))
    by_cases h0 : r.balance = 0
    · have ha0 : r.allocated_qty ≠ 0 := fun hc => hno ⟨h0, hc⟩
      have e1 : decide (r.balance = 0) = true := by simp [h0]
      have e2 : decide (0 < r.balance ∧ 0 < r.allocated_qty) = false := by simp [h0]
      have e3 : decide (r.allocated_qty = 0) = false := by simp [ha0]
      simp only [List.filter_cons, e1, e2, e3, Bool.false_eq_true, eq_self_iff_true,
        if_true, if_false, List.length_cons]
      omega
    · have hbpos : 0 < r.balance := lt_of_le_of_ne hb (Ne.symm h0)
      by_cases h2 : r.allocated_qty = 0
      · have e1 : decide (r.balance = 0) = false := by simp [h0]
        have e2 : decide (0 < r.balance ∧ 0 < r.allocated_qty) = false := by simp [h2]
        have e3 : decide (r.allocated_qty = 0) = true := by simp [h2]
        simp only [List.filter_cons, e1, e2, e3, Bool.false_eq_true, eq_self_iff_true,
          if_true, if_false, List.length_cons]
        omega
      · have hapos : 0 < r.allocated_qty := lt_of_le_of_ne ha (Ne.symm h2)
        have e1 : decide (r.balance = 0) = false := by simp [h0]
        have e2 : decide (0 < r.balance ∧ 0 < r.allocated_qty) = true := by
          simp [hbpos, hapos]
        have e3 : decide (r.allocated_qty = 0) = false := by simp [h2]
        simp only [List.filter_cons, e1, e2, e3, Bool.false_eq_true, eq_self_iff_true,
          if_true, if_false, List.length_cons]
        omega

/-- Whenever `calculate_project_status` returns a record, that record's
fields are exactly the aggregates of lines 85-123: the three counts, the
total number of rows, the total balance, the fulfillment percentage, the
successfully reduced maximum delay, and the status string derived from
them by the lines 103-111 conditional. -/
lemma calculate_project_status_result {df : Table} {project : String} {st : ProjectStatus}
    (h : calculate_project_status df project = StatusResult.result (some st)) :
    proj_max_delay df project = some st.max_delay ∧
    st.ready_items = proj_ready_count df project ∧
    st.partial_items = proj_partial_count df project ∧
    st.missing_items = proj_missing_count df project ∧
    st.total_items = (project_rows df project).length ∧
    st.total_balance = proj_total_balance df project ∧
    st.fulfillment_pct = fulfillment_spec df project ∧
    st.status =
      (if st.total_balance = 0 then "🟢 Ready"
       else if 0 < st.missing_items ∨ st.max_delay = Delay.late then "🔴 Critical"
       else "🟡 Partial") := by
  simp only [calculate_project_status] at h
  split at h
  · simp at h
  · split at h
    · exact StatusResult.noConfusion h
    · rename_i md hmd
      injection h with h2
      injection h2 with h3
      subst h3
      exact ⟨hmd, rfl, rfl, rfl, rfl, rfl, rfl, rfl⟩

/-- C1 (counterexample): on a project with a single row whose balance and
allocated quantity are both 0, the row is counted both Ready and Missing,
so the three counts sum to 2 while the project has 1 row — the counts do
not partition the rows for every input table. -/
theorem counts_not_partition_cex :
    status_counts (calculate_project_status [base_row] "P1") = some (1, 0, 1, 1) ∧
    1 + 0 + 1 ≠ 1 :=
  ⟨by with_unfolding_all rfl, by decide⟩

/-- C1 (amended): for every project with at least one row, all of whose rows
satisfy the expected data invariants (balance ≥ 0, allocated ≥ 0, and not
both balance = 0 and allocated = 0), the Ready, Partial and Missing item
counts computed at lines 91-93 — before the line-97 crash point — sum to
the project's total row count; in particular, whenever
`calculate_project_status` returns a record, its three counts sum to its
total item count. -/
theorem project_status_counts_partition (df : Table) (project : String)
    (_h1 : project_rows df project ≠ [])
    (h2 : ∀ r ∈ project_rows df project,
        0 ≤ r.balance ∧ 0 ≤ r.allocated_qty ∧ ¬(r.balance = 0 ∧ r.allocated_qty = 0)) :
    proj_ready_count df project + proj_partial_count df project
        + proj_missing_count df project = (project_rows df project).length ∧
    ∀ st : ProjectStatus, calculate_project_status df project = StatusResult.result (some st) →
      st.ready_items + st.partial_items + st.missing_items = st.total_items := by
  have hpart := length_filter_partition (project_rows df project) h2
  refine ⟨hpart, ?_⟩
  intro st h
  obtain ⟨-, hr, hp, hm, ht, -, -, -⟩ := calculate_project_status_result h
  rw [hr, hp, hm, ht]
  exact hpart

def c1w_df : Table :=
  [{ base_row with req_qty := 10, allocated_qty := 10, balance := 0 },
   { base_row with req_qty := 5, allocated_qty := 0, balance := 5 }]

/-- C1 witness: the amended partition theorem applied to a concrete
two-row project satisfying the invariants. -/
theorem project_status_counts_partition_witness :
    (project_rows c1w_df "P1" ≠ [] ∧
      ∀ r ∈ project_rows c1w_df "P1",
        0 ≤ r.balance ∧ 0 ≤ r.allocated_qty ∧ ¬(r.balance = 0 ∧ r.allocated_qty = 0)) ∧
    (proj_ready_count c1w_df "P1" + proj_partial_count c1w_df "P1"
        + proj_missing_count c1w_df "P1" = (project_rows c1w_df "P1").length ∧
      ∀ st : ProjectStatus,
        calculate_project_status c1w_df "P1" = StatusResult.result (some st) →
          st.ready_items + st.partial_items + st.missing_items = st.total_items) :=
  ⟨⟨of_decide_eq_true (by with_unfolding_all rfl),
    of_decide_eq_true (by with_unfolding_all rfl)⟩,
   project_status_counts_partition c1w_df "P1"
     (of_decide_eq_true (by with_unfolding_all rfl))
     (of_decide_eq_true (by with_unfolding_all rfl))⟩

def c2cex_df : Table :=
  [{ base_row with balance := 1, delay := Delay.days 2 },
   { base_row with delay := Delay.late }]

/-- C2 (counterexample): a project with at least one row whose nonzero-delay
rows mix a numeric delay (2 days) with the `"late"` sentinel makes the
line-97 `Series.max` reduction raise a TypeError, so
`calculate_project_status` crashes and returns no status at all. -/
theorem project_status_crash_cex :
    project_rows c2cex_df "P1" ≠ [] ∧
    calculate_project_status c2cex_df "P1" = StatusResult.crash :=
  of_decide_eq_true (by with_unfolding_all rfl)

/-- C2 (amended): whenever `calculate_project_status` returns a record —
that is, whenever the line-97 max reduction over the project's
nonzero-delay rows succeeds rather than raising a TypeError on mixed
numeric/"late" values — the record's status is Ready exactly when its total
balance (the project's summed balance) is 0, otherwise Critical exactly
when its missing-item count is positive or its maximum delay is the late
sentinel, and Partial otherwise. -/
theorem project_status_overall_status (df : Table) (project : String)
    (st : ProjectStatus)
    (h : calculate_project_status df project = StatusResult.result (some st)) :
    st.total_balance = proj_total_balance df project ∧
    st.missing_items = proj_missing_count df project ∧
    st.status =
      (if st.total_balance = 0 then "🟢 Ready"
       else if 0 < st.missing_items ∨ st.max_delay = Delay.late then "🔴 Critical"
       else "🟡 Partial") := by
  obtain ⟨-, -, -, hm, -, hb, -, hs⟩ := calculate_project_status_result h
  exact ⟨hb, hm, hs⟩

def c2w_df : Table := [{ base_row with req_qty := 3, allocated_qty := 3, balance := 0 }]

def c2w_st : ProjectStatus :=
  { status := "🟢 Ready"
    status_class := "status-ready"
    total_items := 1
    ready_items := 1
    partial_items := 0
    missing_items := 0
    total_req := 3
    total_allocated := 3
    total_balance := 0
    fulfillment_pct := 100
    max_delay := Delay.days 0
    supply_breakdown := [("PO", 3)]
    sec_delivery := none
    roh_delivery := none }

/-- C2 witness: the status theorem applied to a one-row fully covered
project, whose returned record is classified Ready. -/
theorem project_status_overall_status_witness :
    calculate_project_status c2w_df "P1" = StatusResult.result (some c2w_st) ∧
    (c2w_st.total_balance = proj_total_balance c2w_df "P1" ∧
      c2w_st.missing_items = proj_missing_count c2w_df "P1" ∧
      c2w_st.status =
        (if c2w_st.total_balance = 0 then "🟢 Ready"
         else if 0 < c2w_st.missing_items ∨ c2w_st.max_delay = Delay.late then "🔴 Critical"
         else "🟡 Partial")) :=
  ⟨by with_unfolding_all rfl,
   project_status_overall_status c2w_df "P1" c2w_st (by with_unfolding_all rfl)⟩

def c3cex_df : Table :=
  [{ base_row with req_qty := 10, allocated_qty := 5, balance := 5, delay := Delay.days 4 },
   { base_row with req_qty := 2, allocated_qty := 2, delay := Delay.late }]

def c3neg_df : Table := [{ base_row with req_qty := 10, allocated_qty := -5, balance := 15 }]

/-- C3 (counterexample): the claim fails in two ways.  (a) On a project with
positive total required quantity whose nonzero-delay rows mix a numeric
delay with the `"late"` sentinel, the source crashes at the line-97 max
reduction before line 123 ever computes a fulfillment percentage.  (b) A
single row with balance 15 ≥ 0 and allocated −5 ≤ required 10 satisfies the
claimed per-row invariant, yet the computed fulfillment percentage is −50,
outside [0, 100]. -/
theorem fulfillment_claim_cex :
    (project_rows c3cex_df "P1" ≠ [] ∧
      0 < (c3cex_df.map Row.req_qty).sum ∧
      calculate_project_status c3cex_df "P1" = StatusResult.crash) ∧
    ((c3neg_df.all
        (fun r => decide (0 ≤ r.balance) && decide (r.allocated_qty ≤ r.req_qty))) = true ∧
      status_fulfillment (calculate_project_status c3neg_df "P1") = some (-50) ∧
      ¬ (0:ℚ) ≤ (-50:ℚ)) :=
  of_decide_eq_true (by with_unfolding_all rfl)

lemma fulfillment_spec_range (df : Table) (project : String)
    (hinv : ∀ r ∈ project_rows df project, 0 ≤ r.allocated_qty ∧ r.allocated_qty ≤ r.req_qty) :
    0 ≤ fulfillment_spec df project ∧ fulfillment_spec df project ≤ 100 := by
  have hA : 0 ≤ ((project_rows df project).map Row.allocated_qty).sum := by
    apply List.sum_nonneg
    intro x hx
    obtain ⟨r, hr, rfl⟩ := List.mem_map.mp hx
    exact (hinv r hr).1
  have hAR : ((project_rows df project).map Row.allocated_qty).sum ≤
      ((project_rows df project).map Row.req_qty).sum :=
    List.sum_le_sum (fun r hr => (hinv r hr).2)
  by_cases hR : 0 < ((project_rows df project).map Row.req_qty).sum
  · simp only [fulfillment_spec, if_pos hR]
    constructor
    · exact mul_nonneg (div_nonneg hA (le_of_lt hR)) (by norm_num)
    · have hdiv : ((project_rows df project).map Row.allocated_qty).sum
          / ((project_rows df project).map Row.req_qty).sum ≤ 1 :=
        (div_le_one hR).mpr hAR
      calc ((project_rows df project).map Row.allocated_qty).sum
            / ((project_rows df project).map Row.req_qty).sum * 100
          ≤ 1 * 100 := mul_le_mul_of_nonneg_right hdiv (by norm_num)
        _ = 100 := by norm_num
  · simp only [fulfillment_spec, if_neg hR]
    exact ⟨le_refl 0, by norm_num⟩

/-- C3 (amended): whenever `calculate_project_status` returns a record
(the line-97 max reduction over the project's nonzero-delay rows succeeds;
on mixed numeric/"late" delays the function crashes first), the record's
fulfillment percentage equals total allocated / total required × 100 when
total required > 0 and equals 0 when it is not; and under the per-row
invariant 0 ≤ allocated ≤ required it lies in [0, 100]. -/
theorem project_status_fulfillment (df : Table) (project : String) (st : ProjectStatus)
    (h : calculate_project_status df project = StatusResult.result (some st)) :
    st.fulfillment_pct = fulfillment_spec df project ∧
    ((∀ r ∈ project_rows df project, 0 ≤ r.allocated_qty ∧ r.allocated_qty ≤ r.req_qty) →
      0 ≤ st.fulfillment_pct ∧ st.fulfillment_pct ≤ 100) := by
  obtain ⟨-, -, -, -, -, -, hf, -⟩ := calculate_project_status_result h
  refine ⟨hf, ?_⟩
  intro hinv
  rw [hf]
  exact fulfillment_spec_range df project hinv

def c3w_df : Table := [{ base_row with req_qty := 10, allocated_qty := 5, balance := 5 }]

def c3w_st : ProjectStatus :=
  { status := "🟡 Partial"
    status_class := "status-partial"
    total_items := 1
    ready_items := 0
    partial_items := 1
    missing_items := 0
    total_req := 10
    total_allocated := 5
    total_balance := 5
    fulfillment_pct := 50
    max_delay := Delay.days 0
    supply_breakdown := [("PO", 5)]
    sec_delivery := none
    roh_delivery := none }

/-- C3 witness: the fulfillment theorem applied to a concrete half-covered
project (50% fulfillment). -/
theorem project_status_fulfillment_witness :
    calculate_project_status c3w_df "P1" = StatusResult.result (some c3w_st) ∧
    (c3w_st.fulfillment_pct = fulfillment_spec c3w_df "P1" ∧
      ((∀ r ∈ project_rows c3w_df "P1", 0 ≤ r.allocated_qty ∧ r.allocated_qty ≤ r.req_qty) →
        0 ≤ c3w_st.fulfillment_pct ∧ c3w_st.fulfillment_pct ≤ 100)) :=
  ⟨by with_unfolding_all rfl,
   project_status_fulfillment c3w_df "P1" c3w_st (by with_unfolding_all rfl)⟩

/-! ## Material inquiry blocking issues (C5) -/

/-- Whether the blocking-issue list contains a stuck-in-QC message. -/
def has_qc_issue (l : List BlockingIssue) : Bool :=
  l.any fun i => match i with
    | BlockingIssue.stuck_in_qc _ => true
    | _ => false

/-- Whether the blocking-issue list contains a pending-GR message. -/
def has_gr_issue (l : List BlockingIssue) : Bool :=
  l.any fun i => match i with
    | BlockingIssue.gr_in_process _ => true
    | _ => false

/-- Whether the blocking-issue list contains a delayed-PO message. -/
def has_po_issue (l : List BlockingIssue) : Bool :=
  l.any fun i => match i with
    | BlockingIssue.delayed_po _ => true
    | _ => false

/-- Whether the blocking-issue list contains a PR-creation message. -/
def has_pr_issue (l : List BlockingIssue) : Bool :=
  l.any fun i => match i with
    | BlockingIssue.pr_needed _ => true
    | _ => false

lemma filter_nonempty_decide_iff {p : Row → Prop} [DecidablePred p] {l : Table} :
    (¬ (l.filter (fun r => decide (p r))).isEmpty = true) ↔ ∃ r ∈ l, p r := by
  constructor
  · intro hne
    cases hf : l.filter (fun r => decide (p r)) with
    | nil => exact absurd (by rw [hf]; rfl) hne
    | cons a t =>
      have ha : a ∈ l.filter (fun r => decide (p r)) := by
        rw [hf]; exact List.mem_cons_self a t
      obtain ⟨hmem, hdec⟩ := List.mem_filter.mp ha
      exact ⟨a, hmem, of_decide_eq_true hdec⟩
  · rintro ⟨r, hr, hp⟩ hempty
    have hm : r ∈ l.filter (fun r => decide (p r)) :=
      List.mem_filter.mpr ⟨hr, decide_eq_true hp⟩
    cases hf : l.filter (fun r => decide (p r)) with
    | nil => rw [hf] at hm; cases hm
    | cons a t => rw [hf] at hempty; exact absurd hempty (by simp)

lemma has_qc_issue_chunks (P1 P2 P3 P4 : Prop)
    [Decidable P1] [Decidable P2] [Decidable P3] [Decidable P4] (q1 q2 q3 q4 : ℚ) :
    (has_qc_issue
        ((if P1 then [] else [BlockingIssue.stuck_in_qc q1]) ++
          (if P2 then [] else [BlockingIssue.gr_in_process q2]) ++
          (if P3 then [] else [BlockingIssue.delayed_po q3]) ++
          (if P4 then [] else [BlockingIssue.pr_needed q4])) = true) ↔ ¬ P1 := by
  by_cases h1 : P1 <;> by_cases h2 : P2 <;> by_cases h3 : P3 <;> by_cases h4 : P4 <;>
    simp [has_qc_issue, h1, h2, h3, h4]

lemma has_gr_issue_chunks (P1 P2 P3 P4 : Prop)
    [Decidable P1] [Decidable P2] [Decidable P3] [Decidable P4] (q1 q2 q3 q4 : ℚ) :
    (has_gr_issue
        ((if P1 then [] else [BlockingIssue.stuck_in_qc q1]) ++
          (if P2 then [] else [BlockingIssue.gr_in_process q2]) ++
          (if P3 then [] else [BlockingIssue.delayed_po q3]) ++
          (if P4 then [] else [BlockingIssue.pr_needed q4])) = true) ↔ ¬ P2 := by
  by_cases h1 : P1 <;> by_cases h2 : P2 <;> by_cases h3 : P3 <;> by_cases h4 : P4 <;>
    simp [has_gr_issue, h1, h2, h3, h4]

lemma has_po_issue_chunks (P1 P2 P3 P4 : Prop)
    [Decidable P1] [Decidable P2] [Decidable P3] [Decidable P4] (q1 q2 q3 q4 : ℚ) :
    (has_po_issue
        ((if P1 then [] else [BlockingIssue.stuck_in_qc q1]) ++
          (if P2 then [] else [BlockingIssue.gr_in_process q2]) ++
          (if P3 then [] else [BlockingIssue.delayed_po q3]) ++
          (if P4 then [] else [BlockingIssue.pr_needed q4])) = true) ↔ ¬ P3 := by
  by_cases h1 : P1 <;> by_cases h2 : P2 <;> by_cases h3 : P3 <;> by_cases h4 : P4 <;>
    simp [has_po_issue, h1, h2, h3, h4]

lemma has_pr_issue_chunks (P1 P2 P3 P4 : Prop)
    [Decidable P1] [Decidable P2] [Decidable P3] [Decidable P4] (q1 q2 q3 q4 : ℚ) :
    (has_pr_issue
        ((if P1 then [] else [BlockingIssue.stuck_in_qc q1]) ++
          (if P2 then [] else [BlockingIssue.gr_in_process q2]) ++
          (if P3 then [] else [BlockingIssue.delayed_po q3]) ++
          (if P4 then [] else [BlockingIssue.pr_needed q4])) = true) ↔ ¬ P4 := by
  by_cases h1 : P1 <;> by_cases h2 : P2 <;> by_cases h3 : P3 <;> by_cases h4 : P4 <;>
    simp [has_pr_issue, h1, h2, h3, h4]

lemma material_inquiry_blocking_eq (df : Table) (item_code : String) (info : MaterialInfo)
    (h : material_inquiry df item_code = some info) :
    info.blocking_issues =
      (if ((item_rows df item_code).filter
            (fun r => decide (r.supply_type = "QC"))).isEmpty then []
       else [BlockingIssue.stuck_in_qc
          ((((item_rows df item_code).filter
              (fun r => decide (r.supply_type = "QC"))).map Row.allocated_qty).sum)]) ++
      (if ((item_rows df item_code).filter
            (fun r => decide (r.supply_type = "GR_in_process"))).isEmpty then []
       else [BlockingIssue.gr_in_process
          ((((item_rows df item_code).filter
              (fun r => decide (r.supply_type = "GR_in_process"))).map Row.allocated_qty).sum)]) ++
      (if ((item_rows df item_code).filter
            (fun r => decide (r.supply_type = "PO" ∧ r.delay = Delay.late))).isEmpty then []
       else [BlockingIssue.delayed_po
          ((((item_rows df item_code).filter
              (fun r => decide (r.supply_type = "PO" ∧ r.delay = Delay.late))).map
            Row.allocated_qty).sum)]) ++
      (if ((item_rows df item_code).filter
            (fun r => decide (r.supply_type = "PR"))).isEmpty then []
       else [BlockingIssue.pr_needed
          ((((item_rows df item_code).filter
              (fun r => decide (r.supply_type = "PR"))).map Row.balance).sum)]) := by
  simp only [material_inquiry] at h
  by_cases he : (item_rows df item_code).isEmpty = true
  · rw [if_pos he] at h
    exact absurd h (by simp)
  · rw [if_neg he] at h
    rw [← Option.some.inj h]

/-- C5 (counterexample): an item whose single QC row has allocated
quantity 0 produces a stuck-in-QC message even though the
quality-control-held quantity is 0, not greater than 0. -/
theorem blocking_issue_zero_qty_cex :
    qc_held_qty [{ base_row with supply_type := "QC" }] "ITM1" = 0 ∧
    (material_inquiry [{ base_row with supply_type := "QC" }] "ITM1").map
        MaterialInfo.blocking_issues = some [BlockingIssue.stuck_in_qc 0] ∧
    ¬ (0:ℚ) < qc_held_qty [{ base_row with supply_type := "QC" }] "ITM1" :=
  of_decide_eq_true (by with_unfolding_all rfl)

/-- C5 (amended): for every item with at least one row, the four
blocking-issue rules of `material_inquiry` are independent and all
applicable ones fire, each exactly when a matching row exists: a
stuck-in-QC message exactly when some QC row exists, a pending-GR message
exactly when some GR-in-process row exists, a delayed-PO message exactly
when some purchase-order row has the late delay, and a PR-creation message
exactly when some purchase-requisition row exists (rather than when the
corresponding summed quantity is positive). -/
theorem material_inquiry_blocking_issues (df : Table) (item_code : String)
    (info : MaterialInfo) (h : material_inquiry df item_code = some info) :
    (has_qc_issue info.blocking_issues = true ↔
        ∃ r ∈ item_rows df item_code, r.supply_type = "QC") ∧
    (has_gr_issue info.blocking_issues = true ↔
        ∃ r ∈ item_rows df item_code, r.supply_type = "GR_in_process") ∧
    (has_po_issue info.blocking_issues = true ↔
        ∃ r ∈ item_rows df item_code, r.supply_type = "PO" ∧ r.delay = Delay.late) ∧
    (has_pr_issue info.blocking_issues = true ↔
        ∃ r ∈ item_rows df item_code, r.supply_type = "PR") := by
  have hbi := material_inquiry_blocking_eq df item_code info h
  refine ⟨?_, ?_, ?_, ?_⟩
  · rw [hbi, has_qc_issue_chunks]
    exact filter_nonempty_decide_iff
  · rw [hbi, has_gr_issue_chunks]
    exact filter_nonempty_decide_iff
  · rw [hbi, has_po_issue_chunks]
    exact filter_nonempty_decide_iff
  · rw [hbi, has_pr_issue_chunks]
    exact filter_nonempty_decide_iff

def c5w_df : Table :=
  [{ base_row with supply_type := "QC", allocated_qty := 3 },
   { base_row with supply_type := "PR", balance := 2 }]

/-- C5 witness: an item with one QC row (allocated 3) and one PR row
(balance 2) gets both a QC message and a PR message. -/
theorem material_inquiry_blocking_issues_witness :
    material_inquiry c5w_df "ITM1" =
      some { description := "desc"
             total_req := 0
             total_allocated := 3
             total_balance := 2
             allocation_by_project := [("P1", 0, 3, 2)]
             supply_sources := [("QC", "src", 3), ("PR", "src", 0)]
             blocking_issues := [BlockingIssue.stuck_in_qc 3, BlockingIssue.pr_needed 2]
             item_data := c5w_df } ∧
    ((has_qc_issue [BlockingIssue.stuck_in_qc 3, BlockingIssue.pr_needed 2] = true ↔
        ∃ r ∈ item_rows c5w_df "ITM1", r.supply_type = "QC") ∧
      (has_gr_issue [BlockingIssue.stuck_in_qc 3, BlockingIssue.pr_needed 2] = true ↔
        ∃ r ∈ item_rows c5w_df "ITM1", r.supply_type = "GR_in_process") ∧
      (has_po_issue [BlockingIssue.stuck_in_qc 3, BlockingIssue.pr_needed 2] = true ↔
        ∃ r ∈ item_rows c5w_df "ITM1", r.supply_type = "PO" ∧ r.delay = Delay.late) ∧
      (has_pr_issue [BlockingIssue.stuck_in_qc 3, BlockingIssue.pr_needed 2] = true ↔
        ∃ r ∈ item_rows c5w_df "ITM1", r.supply_type = "PR")) := by
  have hmi : material_inquiry c5w_df "ITM1" =
      some { description := "desc"
             total_req := 0
             total_allocated := 3
             total_balance := 2
             allocation_by_project := [("P1", 0, 3, 2)]
             supply_sources := [("QC", "src", 3), ("PR", "src", 0)]
             blocking_issues := [BlockingIssue.stuck_in_qc 3, BlockingIssue.pr_needed 2]
             item_data := c5w_df } := by with_unfolding_all rfl
  exact ⟨hmi, material_inquiry_blocking_issues c5w_df "ITM1" _ hmi⟩

/-! ## Push-to-production buckets and verdict (C6, C7, C8, C10) -/

/-- C6: a row of the caller-selected subset is in the needs-reallocation
bucket exactly when its supply type is on-hand inventory, its source is not
the free-stock sentinel, and its source is not one of the selected
identifiers. -/
theorem allocate_bucket_mem_iff (fdf : Table) (selected : List String) (r : Row) :
    r ∈ allocate_items_of fdf selected ↔
      (r ∈ fdf ∧ r.supply_type = "inventory" ∧ r.source ≠ "free_stock" ∧
        r.source ∉ selected) := by
  simp [allocate_items_of, List.mem_filter]

/-- C7: when the selection is nonempty and its total required quantity is
positive (so the fulfillment variable is assigned), the readiness verdict is
all-clear when there are no blockers (QC + GR + Missing) and fulfillment is
at least 100, almost-ready when there are at most 3 blockers and fulfillment
is at least 90, and not-ready otherwise; the WIP and reallocation buckets do
not enter the blocker count. -/
theorem push_verdict_spec (fdf : Table) (h1 : fdf ≠ [])
    (h2 : 0 < (fdf.map Row.req_qty).sum) :
    push_verdict fdf =
      VerdictResult.verdict
        (if total_blocking fdf = 0 ∧ 100 ≤ push_fulfillment_value fdf then
          Verdict.all_clear
         else if total_blocking fdf ≤ 3 ∧ 90 ≤ push_fulfillment_value fdf then
          Verdict.almost_ready
         else Verdict.not_ready) := by
  have hf : push_fulfillment fdf = some (push_fulfillment_value fdf) := by
    simp [push_fulfillment, ne_nil_isEmpty_false h1, h2]
  by_cases h0 : total_blocking fdf = 0
  · by_cases hc : 100 ≤ push_fulfillment_value fdf
    · simp [push_verdict, hf, h0, hc]
    · by_cases h90 : 90 ≤ push_fulfillment_value fdf
      · simp [push_verdict, hf, h0, hc, h90]
      · simp [push_verdict, hf, h0, hc, h90]
  · by_cases h3 : total_blocking fdf ≤ 3
    · by_cases h90 : 90 ≤ push_fulfillment_value fdf
      · simp [push_verdict, hf, h0, h3, h90]
      · simp [push_verdict, hf, h0, h3, h90]
    · simp [push_verdict, hf, h0, h3]

def c7w_df : Table := [{ base_row with req_qty := 10, allocated_qty := 10 }]

/-- C7 witness: a fully allocated one-row selection with no blockers is
judged all-clear. -/
theorem push_verdict_spec_witness :
    c7w_df ≠ [] ∧ 0 < (c7w_df.map Row.req_qty).sum ∧
    push_verdict c7w_df = VerdictResult.verdict Verdict.all_clear := by
  refine ⟨of_decide_eq_true (by with_unfolding_all rfl),
    of_decide_eq_true (by with_unfolding_all rfl), ?_⟩
  have h := push_verdict_spec c7w_df (of_decide_eq_true (by with_unfolding_all rfl))
    (of_decide_eq_true (by with_unfolding_all rfl))
  rw [h]
  with_unfolding_all rfl

/-- Boolean disjointness of two row lists. -/
def disjoint_rows (a b : Table) : Bool := a.all (fun r => decide (r ∉ b))

/-- C8 (counterexample): a row with supply type QC and locater 1-1-1-1 is a
member of both the QC-held bucket and the WIP-available bucket, so the five
buckets are not pairwise disjoint. -/
theorem buckets_not_disjoint_cex :
    qc_items_of [{ base_row with supply_type := "QC", locater := "1-1-1-1" }] =
        [{ base_row with supply_type := "QC", locater := "1-1-1-1" }] ∧
    wip_items_of [{ base_row with supply_type := "QC", locater := "1-1-1-1" }] =
        [{ base_row with supply_type := "QC", locater := "1-1-1-1" }] ∧
    disjoint_rows
        (qc_items_of [{ base_row with supply_type := "QC", locater := "1-1-1-1" }])
        (wip_items_of [{ base_row with supply_type := "QC", locater := "1-1-1-1" }]) =
      false :=
  of_decide_eq_true (by with_unfolding_all rfl)

/-- C8 (amended): the three buckets distinguished by supply type — QC-held,
GR-pending and needs-reallocation — are pairwise disjoint for every
selection; the WIP-available and missing buckets may overlap the others. -/
theorem supply_type_buckets_disjoint (fdf : Table) (selected : List String) :
    disjoint_rows (qc_items_of fdf) (gr_items_of fdf) = true ∧
    disjoint_rows (qc_items_of fdf) (allocate_items_of fdf selected) = true ∧
    disjoint_rows (gr_items_of fdf) (allocate_items_of fdf selected) = true := by
  refine ⟨?_, ?_, ?_⟩
  · rw [disjoint_rows, List.all_eq_true]
    intro r hr
    rw [decide_eq_true_eq]
    intro hm
    simp only [qc_items_of] at hr
    simp only [gr_items_of] at hm
    have h1 := (List.mem_filter.mp hr).2
    have h2 := (List.mem_filter.mp hm).2
    rw [decide_eq_true_eq] at h1 h2
    rw [h1] at h2
    exact absurd h2 (by decide)
  · rw [disjoint_rows, List.all_eq_true]
    intro r hr
    rw [decide_eq_true_eq]
    intro hm
    simp only [qc_items_of] at hr
    simp only [allocate_items_of] at hm
    have h1 := (List.mem_filter.mp hr).2
    have h2 := (List.mem_filter.mp hm).2
    rw [decide_eq_true_eq] at h1 h2
    rw [h1] at h2
    exact absurd h2.1 (by decide)
  · rw [disjoint_rows, List.all_eq_true]
    intro r hr
    rw [decide_eq_true_eq]
    intro hm
    simp only [gr_items_of] at hr
    simp only [allocate_items_of] at hm
    have h1 := (List.mem_filter.mp hr).2
    have h2 := (List.mem_filter.mp hm).2
    rw [decide_eq_true_eq] at h1 h2
    rw [h1] at h2
    exact absurd h2.1 (by decide)

/-- C9: every derived view — project status, material inquiry, supplier
performance, production readiness, and the push-to-production buckets and
verdict — leaves the session's loaded table unchanged: each view is a
state-passing function whose output session equals its input session. -/
theorem derived_views_preserve_table (s : Session) (project item_code : String)
    (selected : List String) :
    (run_project_status s project).2 = s ∧
    (run_material_inquiry s item_code).2 = s ∧
    (run_supplier_performance s).2 = s ∧
    (run_production_readiness s).2 = s ∧
    (run_push_to_production s selected).2 = s :=
  ⟨rfl, rfl, rfl, rfl, rfl⟩

def c10cex_df : Table := List.replicate 4 { base_row with balance := 1 }

/-- C10 (counterexample): a nonempty selection with total required quantity
0 but more than 3 blockers (four missing rows) does not crash: the Python
`and` short-circuits on the blocker-count tests, the unassigned fulfillment
variable is never read, and the verdict "not ready" is produced. -/
theorem push_crash_claim_cex :
    c10cex_df ≠ [] ∧ (c10cex_df.map Row.req_qty).sum = 0 ∧
    push_verdict c10cex_df = VerdictResult.verdict Verdict.not_ready ∧
    push_verdict c10cex_df ≠ VerdictResult.name_error :=
  of_decide_eq_true (by with_unfolding_all rfl)

/-- C10 (amended): for every nonempty selection whose total required
quantity is 0, the fulfillment variable stays unassigned and evaluating the
readiness verdict reads it — crashing with a NameError — exactly when the
blocker count is at most 3; with more than 3 blockers the conjunction
short-circuits and "not ready" is returned without reading the variable. -/
theorem push_verdict_unassigned_fulfillment (fdf : Table) (_h1 : fdf ≠ [])
    (h2 : (fdf.map Row.req_qty).sum = 0) :
    (push_verdict fdf = VerdictResult.name_error ↔ total_blocking fdf ≤ 3) := by
  have hf : push_fulfillment fdf = none := by
    simp [push_fulfillment, h2]
  by_cases h0 : total_blocking fdf = 0
  · simp [push_verdict, hf, h0]
  · by_cases h3 : total_blocking fdf ≤ 3
    · simp [push_verdict, hf, h0, h3]
    · simp [push_verdict, hf, h0, h3]

def c10w_df : Table := [base_row]

/-- C10 witness: a one-row selection with required quantity 0 and no
blockers reaches the NameError branch. -/
theorem push_verdict_unassigned_fulfillment_witness :
    c10w_df ≠ [] ∧ (c10w_df.map Row.req_qty).sum = 0 ∧
    (push_verdict c10w_df = VerdictResult.name_error ↔ total_blocking c10w_df ≤ 3) :=
  ⟨of_decide_eq_true (by with_unfolding_all rfl),
   of_decide_eq_true (by with_unfolding_all rfl),
   push_verdict_unassigned_fulfillment c10w_df
     (of_decide_eq_true (by with_unfolding_all rfl))
     (of_decide_eq_true (by with_unfolding_all rfl))⟩

/-! ## Supplier performance (C4) -/

/-- C4: when `supplier_performance` returns a statistics table, that table
contains exactly the suppliers that are non-null and have at least one row
with nonzero delay; each entry carries the count of delayed rows, the mean
delay, the max delay and the summed allocated quantity over that supplier's
delayed rows; and the entries are sorted in descending order of mean delay. -/
theorem supplier_performance_spec (df : Table) (stats : List SupplierStats)
    (h : supplier_performance df = PerfResult.stats stats) :
    (∀ s : String,
        (∃ st ∈ stats, st.supplier = s) ↔
          ∃ r ∈ df, r.supplier = some s ∧ r.delay ≠ Delay.days 0) ∧
    (∀ st ∈ stats, st = mk_supplier_stats (delayed_rows df) st.supplier) ∧
    List.Pairwise by_avg_delay_desc stats := by
  simp only [supplier_performance] at h
  by_cases he : (df.filter (fun r => r.supplier.isSome)).isEmpty = true
  · rw [if_pos he] at h
    exact absurd h (by simp)
  · rw [if_neg he] at h
    by_cases hl : (delayed_rows df).any (fun r => decide (r.delay = Delay.late)) = true
    · rw [if_pos hl] at h
      exact absurd h (by simp)
    · rw [if_neg hl] at h
      injection h with h2
      subst h2
      refine ⟨?_, ?_, ?_⟩
      · intro s
        constructor
        · rintro ⟨st, hst, rfl⟩
          rw [List.mem_insertionSort] at hst
          obtain ⟨s0, hs0, rfl⟩ := List.mem_map.mp hst
          rw [List.mem_dedup] at hs0
          obtain ⟨r, hrD, hre⟩ := List.mem_map.mp hs0
          have hrDf := hrD
          simp only [delayed_rows, List.mem_filter] at hrDf
          obtain ⟨⟨hrdf, hsome⟩, hdel⟩ := hrDf
          obtain ⟨v, hv⟩ := Option.isSome_iff_exists.mp hsome
          have hvs : v = s0 := by
            rw [hv] at hre
            simpa using hre
          refine ⟨r, hrdf, ?_, of_decide_eq_true hdel⟩
          rw [hv, hvs]
          simp [mk_supplier_stats]
        · rintro ⟨r, hrdf, hsup, hdel⟩
          have hrD : r ∈ delayed_rows df := by
            simp only [delayed_rows, List.mem_filter]
            exact ⟨⟨hrdf, by rw [hsup]; rfl⟩, decide_eq_true hdel⟩
          have hs0 : s ∈ (delayed_rows df).map (fun r => r.supplier.getD "") :=
            List.mem_map.mpr ⟨r, hrD, by rw [hsup]; rfl⟩
          refine ⟨mk_supplier_stats (delayed_rows df) s, ?_, rfl⟩
          rw [List.mem_insertionSort]
          exact List.mem_map.mpr ⟨s, List.mem_dedup.mpr hs0, rfl⟩
      · intro st hst
        rw [List.mem_insertionSort] at hst
        obtain ⟨s0, hs0, rfl⟩ := List.mem_map.mp hst
        rfl
      · exact List.sorted_insertionSort by_avg_delay_desc _

def c4w_df : Table :=
  [{ base_row with supplier := some "A", delay := Delay.days 5, allocated_qty := 2 },
   { base_row with supplier := some "B", delay := Delay.days 3, allocated_qty := 4 }]

def c4w_stats : List SupplierStats :=
  [{ supplier := "A", delayed_items := 1, avg_delay_days := 5, max_delay_days := 5,
     total_qty_delayed := 2 },
   { supplier := "B", delayed_items := 1, avg_delay_days := 3, max_delay_days := 3,
     total_qty_delayed := 4 }]

/-- C4 witness: two suppliers with delays 5 and 3 days yield a two-row
statistics table sorted A before B. -/
theorem supplier_performance_spec_witness :
    supplier_performance c4w_df = PerfResult.stats c4w_stats ∧
    ((∀ s : String,
        (∃ st ∈ c4w_stats, st.supplier = s) ↔
          ∃ r ∈ c4w_df, r.supplier = some s ∧ r.delay ≠ Delay.days 0) ∧
      (∀ st ∈ c4w_stats, st = mk_supplier_stats (delayed_rows c4w_df) st.supplier) ∧
      List.Pairwise by_avg_delay_desc c4w_stats) := by
  have hp : supplier_performance c4w_df = PerfResult.stats c4w_stats := by
    with_unfolding_all rfl
  exact ⟨hp, supplier_performance_spec c4w_df c4w_stats hp⟩
